import Mathlib

/-!
Shallow embedding of the huntsAPI integration service.

Sources embedded from the repository:
- `src/app-registration.js`: application registration and permission merging
  against the directory (Graph) API.
- `src/unnamed/part_000`: the Express route layer (register-app, purge,
  hunting-queries, upload) and the multer file filter.

The module `hunting-queries.js` (query/hunt/relation builders, bulk
orchestration) is referenced by the route layer but is not present under
`src/`; those operations are modelled from the specification, each marked
`Modelled from the spec:` in its doc comment.
-/

/-- An HTTP response as produced by the Express routes: a numeric status
code and a JSON body. -/
structure HttpResponse (β : Type) where
  status : Nat
  body : β
deriving DecidableEq, Repr

/-! ## Character-level string utilities

The JavaScript code manipulates strings through library primitives
(`path.extname`, `toLowerCase`, `split`, prefix tests). They are embedded
as structurally recursive functions on character lists so that every one
of them evaluates by kernel reduction. -/

/-- Split a character list on a separator character; mirrors
`String.prototype.split` with a single-character separator. -/
def splitOnChar (sep : Char) : List Char → List (List Char)
  | [] => [[]]
  | c :: cs =>
    if c = sep then [] :: splitOnChar sep cs
    else
      match splitOnChar sep cs with
      | [] => [[c]]
      | r :: rs => (c :: r) :: rs

/-- Whether `sep` occurs as a contiguous segment of the list; mirrors
`String.prototype.includes`. -/
def containsSegment (sep : List Char) : List Char → Bool
  | [] => sep.isEmpty
  | c :: cs => sep.isPrefixOf (c :: cs) || containsSegment sep cs

/-! ## Embedding of `src/app-registration.js` -/

/-- One scope/role entry of a `resourceAccess` array (`{id, type}` in the
Graph payload). -/
structure ResourceAccess where
  id : String
  type : String
deriving DecidableEq, Repr

/-- One entry of an application's `requiredResourceAccess` array:
a resource API identifier plus its access entries. -/
structure RequiredResourceAccessEntry where
  resourceAppId : String
  resourceAccess : List ResourceAccess
deriving DecidableEq, Repr

/-- `web.implicitGrantSettings` of the registration payload. -/
structure ImplicitGrantSettings where
  enableIdTokenIssuance : Bool
  enableAccessTokenIssuance : Bool
deriving DecidableEq, Repr

/-- `web` section of the registration payload. -/
structure WebSettings where
  redirectUris : List String
  implicitGrantSettings : ImplicitGrantSettings
deriving DecidableEq, Repr

/-- The application payload posted by `registerApplication`
(`src/app-registration.js` lines 8-31). -/
structure AppRegistrationPayload where
  displayName : String
  signInAudience : String
  web : WebSettings
  requiredResourceAccess : List RequiredResourceAccessEntry
deriving DecidableEq, Repr

/-- The hardcoded Microsoft Graph `User.Read` delegated-scope entry of
`registerApplication` (`src/app-registration.js` lines 18-30). -/
def graphUserReadEntry : RequiredResourceAccessEntry :=
  { resourceAppId := "00000003-0000-0000-c000-000000000000"
    resourceAccess := [{ id := "e1fe6dd8-ba31-4d61-89e7-88639da4683d", type := "Scope" }] }

/-- `registerApplication(appName, redirectUris)` builds the application
payload it posts to `/applications` (`src/app-registration.js` lines 5-34). -/
def registerApplication (appName : String) (redirectUris : List String) :
    AppRegistrationPayload :=
  { displayName := appName
    signInAudience := "AzureADMyOrg"
    web :=
      { redirectUris := redirectUris
        implicitGrantSettings :=
          { enableIdTokenIssuance := true
            enableAccessTokenIssuance := true } }
    requiredResourceAccess := [graphUserReadEntry] }

/-- The fixed Azure Service Management (`user_impersonation`) permission
entry appended by `addSentinelPermissions`
(`src/app-registration.js` lines 71-79). -/
def managementPermissions : RequiredResourceAccessEntry :=
  { resourceAppId := "797f4846-ba00-4fd7-ba43-dac1f8f63013"
    resourceAccess := [{ id := "41094075-9dad-400e-a0bd-54e686782033", type := "Scope" }] }

/-- An application object as stored in the directory: object id, client
id, display name, and a `requiredResourceAccess` field that may be absent
(`null`/missing in the Graph representation, hence `Option`). -/
structure RegisteredApp where
  id : String
  appId : String
  displayName : String
  requiredResourceAccess : Option (List RequiredResourceAccessEntry)
deriving DecidableEq, Repr

/-- The directory's application store, a list of application objects. -/
abbrev Directory : Type := List RegisteredApp

/-- `GET /applications/{appObjectId}`: look an application up by object id. -/
def getApplication (dir : Directory) (appObjectId : String) : Option RegisteredApp :=
  dir.find? (fun a => a.id == appObjectId)

/-- `PATCH /applications/{appObjectId}` with a new `requiredResourceAccess`
value: update the matching application in place. -/
def patchApplication (dir : Directory) (appObjectId : String)
    (rra : List RequiredResourceAccessEntry) : Directory :=
  dir.map (fun a =>
    if a.id == appObjectId then { a with requiredResourceAccess := some rra } else a)

/-- The merged `requiredResourceAccess` computed by `addApiPermissions`
(`src/app-registration.js` lines 51-54):
`[...(app.requiredResourceAccess || []), ...permissions]`. An absent
(`null`) field defaults to the empty list via `|| []`. -/
def mergedRequiredResourceAccess (app : RegisteredApp)
    (permissions : List RequiredResourceAccessEntry) :
    List RequiredResourceAccessEntry :=
  (app.requiredResourceAccess.getD []) ++ permissions

/-- `addApiPermissions(appObjectId, permissions)`
(`src/app-registration.js` lines 44-66): read the application, merge the
new permissions onto the existing ones, and patch the application.
`none` models the thrown error when the application cannot be read. -/
def addApiPermissions (dir : Directory) (appObjectId : String)
    (permissions : List RequiredResourceAccessEntry) : Option Directory :=
  (getApplication dir appObjectId).map (fun app =>
    patchApplication dir appObjectId (mergedRequiredResourceAccess app permissions))

/-- `addSentinelPermissions(appObjectId)`
(`src/app-registration.js` lines 69-82): `addApiPermissions` applied to
the singleton list holding the Azure Service Management entry. -/
def addSentinelPermissions (dir : Directory) (appObjectId : String) : Option Directory :=
  addApiPermissions dir appObjectId [managementPermissions]

/-! ## Embedding of the route layer (`src/unnamed/part_000`) -/

/-- The `{error: string}` JSON body produced by `sendErrorResponse`
(`src/unnamed/part_000` lines 19-24). -/
structure ErrorBody where
  error : String
deriving DecidableEq, Repr

/-- One aggregate outcome record of a purge (`PurgeResultDetail` of the
repository's OpenAPI document): an optional success message and an
optional error description. -/
structure PurgeResultDetail where
  message : Option String
  error : Option String
deriving DecidableEq, Repr

/-- The transient purge aggregate `{queryCleanup, huntCleanup}`; either
field may be absent (the route reads them with optional chaining `?.`). -/
structure PurgeResult where
  queryCleanup : Option PurgeResultDetail
  huntCleanup : Option PurgeResultDetail
deriving DecidableEq, Repr

/-- JavaScript truthiness of an optional string: `undefined`/`null` and
the empty string are falsy, every other string is truthy. -/
def truthyString : Option String → Bool
  | none => false
  | some s => !(s == "")

/-- `result.queryCleanup?.error` as a truthiness test: the optional
chaining yields `undefined` when the detail record is absent. -/
def cleanupCarriesError : Option PurgeResultDetail → Bool
  | none => false
  | some d => truthyString d.error

/-- `DELETE /api/purge` (`src/unnamed/part_000` lines 146-165): if either
cleanup aggregate reports an error, respond 207 with the purge result;
otherwise respond 200 with the purge result. -/
def purgeRoute (result : PurgeResult) : HttpResponse PurgeResult :=
  if cleanupCarriesError result.queryCleanup || cleanupCarriesError result.huntCleanup then
    { status := 207, body := result }
  else
    { status := 200, body := result }

/-- The remote directory calls a run of the register-app route can issue. -/
inductive GraphCall where
  | postApplication
  | getApplication
  | patchApplication
  | deleteApplication
deriving DecidableEq, Repr

/-- Failure oracle for the three directory round-trips of the
register-app route: `none` means the call succeeds, `some e` means it
rejects with message `e`. -/
structure GraphEnv where
  registerFails : Option String
  getFails : Option String
  patchFails : Option String
deriving DecidableEq, Repr

/-- Body of a `POST /api/register-app` response: the 201 success shape
`{message, appId, objectId, displayName}` or the `{error}` shape. -/
inductive RegisterRouteBody where
  | success (message appId objectId displayName : String)
  | failure (e : ErrorBody)
deriving DecidableEq, Repr

/-- Default application display name (`src/unnamed/part_000` line 13). -/
def DEFAULT_APP_NAME : String := "Sentinel TH Integration App"

/-- `POST /api/register-app` (`src/unnamed/part_000` lines 50-72):
`registerApplication(effectiveAppName, redirectUris || [])`, then
`addSentinelPermissions(app.id)`; any thrown error reaches the catch
block, which responds 500 `{error}`. On successful registration the
directory stores a new application built from the posted payload with
server-assigned identifiers (`freshApp`); the subsequent permission step
reads that stored application and patches it. No path deletes an
application. -/
def registerAppRoute (appName : Option String) (redirectUris : Option (List String))
    (freshApp : RegisteredApp) (env : GraphEnv) (dir : Directory) :
    HttpResponse RegisterRouteBody × Directory × List GraphCall :=
  let effectiveAppName := appName.getD DEFAULT_APP_NAME
  let payload := registerApplication effectiveAppName (redirectUris.getD [])
  match env.registerFails with
  | some e => ({ status := 500, body := .failure ⟨e⟩ }, dir, [.postApplication])
  | none =>
    let created : RegisteredApp :=
      { freshApp with
        displayName := payload.displayName
        requiredResourceAccess := some payload.requiredResourceAccess }
    let dir1 := dir ++ [created]
    match env.getFails with
    | some e =>
      ({ status := 500, body := .failure ⟨e⟩ }, dir1, [.postApplication, .getApplication])
    | none =>
      let rra := mergedRequiredResourceAccess created [managementPermissions]
      match env.patchFails with
      | some e =>
        ({ status := 500, body := .failure ⟨e⟩ }, dir1,
         [.postApplication, .getApplication, .patchApplication])
      | none =>
        ({ status := 201
           body := .success "Application registered and permissions added successfully"
             created.appId created.id created.displayName },
         patchApplication dir1 created.id rra,
         [.postApplication, .getApplication, .patchApplication])

/-! ## Embedding of the multer file filter (`src/unnamed/part_000` lines 31-40) -/

/-- The last path component, as Node's `path` module computes it for the
POSIX separator. -/
def basename (p : String) : String :=
  String.mk (((splitOnChar '/' p.toList).getLast?).getD p.toList)

/-- Node's `path.extname` on ordinary file names: the extension runs from
the last `.` of the basename to its end; a basename with no dot, or whose
only dot is the leading character (a dotfile), has extension `""`. -/
def extname (p : String) : String :=
  match splitOnChar '.' (basename p).toList with
  | [] => ""
  | [_] => ""
  | [[], _] => ""
  | parts => String.mk ('.' :: (parts.getLast?).getD [])

/-- JavaScript `String.prototype.toLowerCase` restricted to ASCII
letters, which is all the filter's comparison against `".kql"` needs. -/
def toLowerCase (s : String) : String := String.mk (s.toList.map Char.toLower)

/-- Accepted upload extension (`src/unnamed/part_000` line 12). -/
def KQL_EXTENSION : String := ".kql"

/-- The multer `fileFilter` (`src/unnamed/part_000` lines 33-39): reject
with an error unless the lowercased extension of the original name equals
`.kql`. -/
def fileFilter (originalname : String) : Except String Unit :=
  let ext := toLowerCase (extname originalname)
  if ext != KQL_EXTENSION then
    Except.error ("Only " ++ KQL_EXTENSION ++ " files are allowed")
  else
    Except.ok ()

/-! ## Model of `hunting-queries.js` (not present under `src/`) -/

/-- A name/value tag of a SavedSearch's structured tag set. -/
structure Tag where
  name : String
  value : String
deriving DecidableEq, Repr

/-- A SavedSearch (hunting query) resource payload. -/
structure SavedSearch where
  name : String
  displayName : String
  category : String
  query : String
  description : String
  tags : List Tag
deriving DecidableEq, Repr

/-- A Hunt resource payload. -/
structure Hunt where
  name : String
  displayName : String
  description : String
  status : String
  labels : List String
deriving DecidableEq, Repr

/-- A Relation resource payload, a child of a Hunt linking a SavedSearch. -/
structure Relation where
  name : String
  huntId : String
  relatedResourceId : String
  relatedResourceType : String
  labels : List String
deriving DecidableEq, Repr

/-- The error taxonomy of the spec (§7): validation, parse, and remote
failures. -/
inductive QError where
  | validation (msg : String)
  | parse (msg : String)
  | remote (msg : String)
deriving DecidableEq, Repr

/-- The message carried by an error, as read by `sendErrorResponse`. -/
def QError.message : QError → String
  | .validation m => m
  | .parse m => m
  | .remote m => m

/-- Modelled from the spec: the fixed Attribution Label constant stamped
on every resource the integration creates; its concrete value lives in
`hunting-queries.js`, which is not under `src/`. -/
def attributionLabel : String := "Crimson7-huntsAPI"

/-- The attribution entry in a SavedSearch's name/value tag set. -/
def attributionTag : Tag := { name := "createdBy", value := attributionLabel }

/-- The JSON body of `POST /api/hunting-queries` (`QueryInput` of the
repository's OpenAPI document); every field may be absent. -/
structure QueryInput where
  name : Option String
  description : Option String
  query : Option String
  tactics : Option String
  techniques : Option String
  extid : Option String
deriving DecidableEq, Repr

/-- Modelled from the spec (§4.1): a scalar tactics/techniques string is
normalized into the structured tag set, one tag entry per element. -/
def scalarTags (tagName : String) : Option String → List Tag
  | none => []
  | some s =>
    (splitOnChar ',' s.toList).map (fun v => { name := tagName, value := String.mk v })

/-- Modelled from the spec (§4.1): build the SavedSearch payload of
`createQueryFromInput`. `name` and `query` are required (ValidationError
otherwise); tactics/techniques are normalized into tags; the Attribution
Label is always stamped into the tag set. `freshName` stands for the
caller-assigned GUID-like resource name. -/
def buildSavedSearch (input : QueryInput) (freshName : String) :
    Except QError SavedSearch :=
  match input.name, input.query with
  | some n, some q =>
    .ok { name := freshName
          displayName := n
          category := "Hunting Queries"
          query := q
          description := input.description.getD ""
          tags := scalarTags "tactics" input.tactics
            ++ scalarTags "techniques" input.techniques
            ++ [attributionTag] }
  | _, _ => .error (.validation "name and query are required")

/-- The SIEM workspace contents relevant to this model. -/
structure Workspace where
  savedSearches : List SavedSearch
  hunts : List Hunt
  relations : List Relation
deriving DecidableEq, Repr

/-- The kinds of remote SIEM calls an operation can issue, recorded in
issue order. -/
inductive CallKind where
  | createSavedSearch
  | createHunt
  | createRelation
  | deleteSavedSearch
  | deleteHunt
deriving DecidableEq, Repr

/-- Failure oracle for the three remote creation primitives: `none`
means the call succeeds, `some m` that it fails with message `m`. -/
structure SiemEnv where
  savedSearchFails : Option String
  huntFails : Option String
  relationFails : Option String
deriving DecidableEq, Repr

/-- Modelled from the spec (§4.1): `createQueryFromInput` validates,
then calls the SIEM client's create-saved-search primitive; remote
errors propagate unchanged; on success the created SavedSearch is the
result. Returns the result, the workspace afterwards, and the remote
calls issued. -/
def createQueryFromInput (input : QueryInput) (freshName : String)
    (env : SiemEnv) (ws : Workspace) :
    Except QError SavedSearch × Workspace × List CallKind :=
  match buildSavedSearch input freshName with
  | .error e => (.error e, ws, [])
  | .ok p =>
    match env.savedSearchFails with
    | some m => (.error (.remote m), ws, [.createSavedSearch])
    | none =>
      (.ok p, { ws with savedSearches := ws.savedSearches ++ [p] }, [.createSavedSearch])

/-- The recognized header-comment marker for key `key`: `// Key: `. -/
def headerMarker (key : String) : List Char :=
  '/' :: '/' :: ' ' :: (key.toList ++ (':' :: [' ']))

/-- Modelled from the spec (§4.1, §9): read one header value from the
leading comment lines of an uploaded KQL file, convention
`// Key: value`. The exact header grammar is loosely specified. -/
def headerValue (key : String) (lines : List (List Char)) : Option String :=
  (lines.filterMap (fun l =>
    if (headerMarker key).isPrefixOf l then
      some (String.mk (l.drop (headerMarker key).length))
    else none)).head?

/-- A line holding only whitespace. -/
def isBlankLine (l : List Char) : Bool :=
  l.all (fun c => c = ' ' || c = '\t' || c = '\r')

/-- Rejoin body lines with newlines. -/
def joinLines : List (List Char) → List Char
  | [] => []
  | [l] => l
  | l :: ls => l ++ '\n' :: joinLines ls

/-- Modelled from the spec (§4.1): parse an uploaded file's text into a
QueryInput: header comment lines encode name/description/tactics/
techniques, the remaining non-comment, non-blank lines are the KQL body;
ParseError when no body remains after header extraction. -/
def parseKqlFile (content : String) : Except QError QueryInput :=
  let lines := splitOnChar '\n' content.toList
  let bodyLines := lines.filter (fun l => !(['/', '/'].isPrefixOf l) && !(isBlankLine l))
  if bodyLines.isEmpty then
    .error (.parse "no KQL body found after header extraction")
  else
    .ok { name := headerValue "Name" lines
          description := headerValue "Description" lines
          query := some (String.mk (joinLines bodyLines))
          tactics := headerValue "Tactics" lines
          techniques := headerValue "Techniques" lines
          extid := headerValue "Id" lines }

/-- Modelled from the spec (§4.1): `createQueryFromFile` reads the file's
text, parses it, and runs the input path on the parsed QueryInput. It
never deletes the file (temporary-file lifecycle is owned by the
caller). -/
def createQueryFromFile (content : String) (freshName : String)
    (env : SiemEnv) (ws : Workspace) :
    Except QError SavedSearch × Workspace × List CallKind :=
  match parseKqlFile content with
  | .error e => (.error e, ws, [])
  | .ok input => createQueryFromInput input freshName env ws

/-- Modelled from the spec (§4.2): build the Hunt payload of
`createSentinelHunt`. `name` is required; a fresh resource name is
generated; the Attribution Label is stamped into the label set. -/
def buildHunt (name description : Option String) (freshName : String) :
    Except QError Hunt :=
  match name with
  | none => .error (.validation "name is required")
  | some n =>
    .ok { name := freshName
          displayName := n
          description := description.getD ""
          status := "New"
          labels := [attributionLabel] }

/-- Modelled from the spec (§4.2): `createSentinelHunt` validates, then
calls the SIEM client's create-hunt primitive; remote errors propagate
unchanged. -/
def createSentinelHunt (name description : Option String) (freshName : String)
    (env : SiemEnv) (ws : Workspace) :
    Except QError Hunt × Workspace × List CallKind :=
  match buildHunt name description freshName with
  | .error e => (.error e, ws, [])
  | .ok h =>
    match env.huntFails with
    | some m => (.error (.remote m), ws, [.createHunt])
    | none => (.ok h, { ws with hunts := ws.hunts ++ [h] }, [.createHunt])

/-- Modelled from the spec (§4.3): a well-formed saved-search resource
path contains a `/savedSearches/` segment. -/
def isSavedSearchResourceId (s : String) : Bool :=
  containsSegment "/savedSearches/".toList s.toList

/-- Modelled from the spec (§4.3): build the Relation payload of
`linkQueryToHunt`. Both fields are required and `queryResourceId` must be
a well-formed saved-search resource path; the Attribution Label is
stamped into the label set. -/
def buildRelation (huntId queryResourceId : Option String) (freshName : String) :
    Except QError Relation :=
  match huntId, queryResourceId with
  | some h, some q =>
    if isSavedSearchResourceId q then
      .ok { name := freshName
            huntId := h
            relatedResourceId := q
            relatedResourceType := "Microsoft.OperationalInsights/savedSearches"
            labels := [attributionLabel] }
    else
      .error (.validation "queryResourceId must reference a saved search in the workspace")
  | _, _ => .error (.validation "huntId and queryResourceId are required")

/-- Modelled from the spec (§4.3): `linkQueryToHunt` validates, then
calls the SIEM client's create-relation primitive; remote errors
(including not-found for a dangling reference) propagate unchanged. -/
def linkQueryToHunt (huntId queryResourceId : Option String) (freshName : String)
    (env : SiemEnv) (ws : Workspace) :
    Except QError Relation × Workspace × List CallKind :=
  match buildRelation huntId queryResourceId freshName with
  | .error e => (.error e, ws, [])
  | .ok r =>
    match env.relationFails with
    | some m => (.error (.remote m), ws, [.createRelation])
    | none => (.ok r, { ws with relations := ws.relations ++ [r] }, [.createRelation])

/-- The body of `POST /api/bulk-create-hunt`: a QueryInput plus
`huntName`/`huntDescription`. -/
structure BulkInput where
  queryInput : QueryInput
  huntName : Option String
  huntDescription : Option String
deriving DecidableEq, Repr

/-- The full resource id of a created SavedSearch under the workspace. -/
def fullQueryResourceId (workspaceId : String) (ss : SavedSearch) : String :=
  workspaceId ++ "/savedSearches/" ++ ss.name

/-- Modelled from the spec (§4.4): `createHuntWithQuery` validates that
the query fields and `huntName` are present (fail fast before any remote
call), then sequentially creates the SavedSearch, the Hunt, and the
Relation linking them; a failure at any step aborts the remaining steps,
propagates the error, and deletes nothing. -/
def createHuntWithQuery (input : BulkInput)
    (qFresh hFresh rFresh workspaceId : String) (env : SiemEnv) (ws : Workspace) :
    Except QError Relation × Workspace × List CallKind :=
  match input.queryInput.name, input.queryInput.query, input.huntName with
  | some _, some _, some _ =>
    match createQueryFromInput input.queryInput qFresh env ws with
    | (.error e, ws1, c1) => (.error e, ws1, c1)
    | (.ok ss, ws1, c1) =>
      match createSentinelHunt input.huntName input.huntDescription hFresh env ws1 with
      | (.error e, ws2, c2) => (.error e, ws2, c1 ++ c2)
      | (.ok h, ws2, c2) =>
        match linkQueryToHunt (some h.name) (some (fullQueryResourceId workspaceId ss))
            rFresh env ws2 with
        | (r, ws3, c3) => (r, ws3, c1 ++ c2 ++ c3)
  | _, _, _ => (.error (.validation "name, query and huntName are required"), ws, [])

/-- Body of a hunting-query route response: the created SavedSearch or
the `{error}` shape. -/
inductive QueryRouteBody where
  | created (s : SavedSearch)
  | failure (e : ErrorBody)
deriving DecidableEq, Repr

/-- `POST /api/hunting-queries` (`src/unnamed/part_000` lines 105-112):
call `createQueryFromInput`; on success respond 201 with the result; on
any thrown error the catch block calls
`sendErrorResponse(res, error, 500, ...)`, i.e. status 500 with
`{error: message}`. -/
def huntingQueriesPostRoute (body : QueryInput) (freshName : String)
    (env : SiemEnv) (ws : Workspace) :
    HttpResponse QueryRouteBody × Workspace × List CallKind :=
  match createQueryFromInput body freshName env ws with
  | (.ok r, ws1, calls) => ({ status := 201, body := .created r }, ws1, calls)
  | (.error e, ws1, calls) =>
    ({ status := 500, body := .failure ⟨e.message⟩ }, ws1, calls)

/-- A staged upload: the multer-assigned path and the file's text. -/
structure UploadedFile where
  path : String
  content : String
deriving DecidableEq, Repr

/-- `fs.unlinkSync(p)` on the staged-uploads directory: afterwards no
file exists at path `p` (a filesystem holds one file per path). -/
def unlinkFile (files : List String) (p : String) : List String :=
  files.filter (fun q => q != p)

/-- `POST /api/hunting-queries/upload` (`src/unnamed/part_000` lines
168-196): 400 when no file was staged; otherwise run
`createQueryFromFile` on the staged file, unlink it, and respond 201 on
success; on a thrown error the catch block unlinks the staged file when
it still exists and responds 500 `{error}`. Returns the response, the
staged files afterwards, the workspace afterwards, and the remote calls
issued. -/
def uploadRoute (file : Option UploadedFile) (files : List String)
    (freshName : String) (env : SiemEnv) (ws : Workspace) :
    HttpResponse QueryRouteBody × List String × Workspace × List CallKind :=
  match file with
  | none => ({ status := 400, body := .failure ⟨"No file uploaded"⟩ }, files, ws, [])
  | some f =>
    match createQueryFromFile f.content freshName env ws with
    | (.ok r, ws1, calls) =>
      ({ status := 201, body := .created r }, unlinkFile files f.path, ws1, calls)
    | (.error e, ws1, calls) =>
      let files1 := if files.contains f.path then unlinkFile files f.path else files
      ({ status := 500, body := .failure ⟨e.message⟩ }, files1, ws1, calls)

/-! ## Concrete sample values used by the witness theorems -/

/-- A directory application that already has one unrelated
`requiredResourceAccess` entry. -/
def sampleApp : RegisteredApp :=
  { id := "obj-1"
    appId := "client-1"
    displayName := "existing app"
    requiredResourceAccess := some [graphUserReadEntry] }

/-- A directory application whose `requiredResourceAccess` field is
absent. -/
def sampleBareApp : RegisteredApp :=
  { id := "obj-2"
    appId := "client-2"
    displayName := "bare app"
    requiredResourceAccess := none }

/-- A two-application directory state. -/
def sampleDir : Directory := [sampleApp, sampleBareApp]

/-- The server-assigned identifiers of a newly created application. -/
def sampleFreshApp : RegisteredApp :=
  { id := "obj-9"
    appId := "client-9"
    displayName := ""
    requiredResourceAccess := none }

/-- A valid query input. -/
def sampleQueryInput : QueryInput :=
  { name := some "q1"
    description := some "a sample"
    query := some "Heartbeat | take 1"
    tactics := some "Impact"
    techniques := some "T1059"
    extid := none }

/-- The empty request body: every field absent. -/
def emptyQueryInput : QueryInput :=
  { name := none, description := none, query := none
    tactics := none, techniques := none, extid := none }

/-- A valid bulk-create body. -/
def sampleBulkInput : BulkInput :=
  { queryInput := sampleQueryInput, huntName := some "H1", huntDescription := none }

/-- An empty SIEM workspace. -/
def emptyWorkspace : Workspace := { savedSearches := [], hunts := [], relations := [] }

/-- A SIEM environment in which every remote call succeeds. -/
def okSiemEnv : SiemEnv :=
  { savedSearchFails := none, huntFails := none, relationFails := none }

/-- A SIEM environment in which the hunt-creation call fails. -/
def huntFailsEnv : SiemEnv :=
  { savedSearchFails := none, huntFails := some "hunt boom", relationFails := none }

/-- A directory environment in which the permission patch fails after a
successful registration. -/
def patchFailsGraphEnv : GraphEnv :=
  { registerFails := none, getFails := none, patchFails := some "patch boom" }

/-- The SavedSearch created from `sampleQueryInput` with fresh name `g1`. -/
def sampleSavedSearch : SavedSearch :=
  { name := "g1"
    displayName := "q1"
    category := "Hunting Queries"
    query := "Heartbeat | take 1"
    description := "a sample"
    tags := [{ name := "tactics", value := "Impact" },
             { name := "techniques", value := "T1059" }, attributionTag] }

/-- The text of a small uploaded KQL file. -/
def sampleKqlContent : String := "// Name: Uploaded Query\nHeartbeat | take 1"

/-- The SavedSearch created from `sampleKqlContent` with fresh name `g1`. -/
def sampleFileSavedSearch : SavedSearch :=
  { name := "g1"
    displayName := "Uploaded Query"
    category := "Hunting Queries"
    query := "Heartbeat | take 1"
    description := ""
    tags := [attributionTag] }

/-- The Hunt created for display name `H1` with fresh name `g2`. -/
def sampleHunt : Hunt :=
  { name := "g2", displayName := "H1", description := "", status := "New"
    labels := [attributionLabel] }

/-- The Relation linking hunt `g2` to saved search `g1`. -/
def sampleRelation : Relation :=
  { name := "g3", huntId := "g2", relatedResourceId := "/ws/savedSearches/g1"
    relatedResourceType := "Microsoft.OperationalInsights/savedSearches"
    labels := [attributionLabel] }

/-! ## Theorems -/

/-- Looking an application up after a patch yields the previously found
application with its `requiredResourceAccess` replaced. -/
theorem getApplication_patchApplication (dir : Directory) (appObjectId : String)
    (rra : List RequiredResourceAccessEntry) :
    getApplication (patchApplication dir appObjectId rra) appObjectId =
      (getApplication dir appObjectId).map
        (fun a => { a with requiredResourceAccess := some rra }) := by
  induction dir with
  | nil => rfl
  | cons a rest ih =>
    simp only [getApplication, patchApplication, List.map_cons] at ih ⊢
    by_cases h : (a.id == appObjectId) = true
    · simp only [if_pos h, List.find?]
      simp [h]
    · have h' : (a.id == appObjectId) = false := by simpa using h
      rw [if_neg h]
      simp only [List.find?, h']
      exact ih

/-- C1: for every directory state and every prior
`requiredResourceAccess` of the application at `appObjectId`,
`addSentinelPermissions` writes back exactly the prior list followed by
one appended Azure Service Management (`user_impersonation`) entry, so
every pre-existing entry is kept in place and nothing is removed or
replaced. -/
theorem C1_addSentinelPermissions_appends (dir : Directory) (appObjectId : String)
    (app : RegisteredApp) (prior : List RequiredResourceAccessEntry)
    (hfind : getApplication dir appObjectId = some app)
    (hprior : app.requiredResourceAccess.getD [] = prior) :
    addSentinelPermissions dir appObjectId =
      some (patchApplication dir appObjectId (prior ++ [managementPermissions])) ∧
    getApplication (patchApplication dir appObjectId (prior ++ [managementPermissions]))
        appObjectId =
      some { app with requiredResourceAccess := some (prior ++ [managementPermissions]) } ∧
    (prior ++ [managementPermissions]).take prior.length = prior ∧
    (prior ++ [managementPermissions]).drop prior.length = [managementPermissions] ∧
    managementPermissions.resourceAppId = "797f4846-ba00-4fd7-ba43-dac1f8f63013" ∧
    managementPermissions.resourceAccess =
      [{ id := "41094075-9dad-400e-a0bd-54e686782033", type := "Scope" }] := by
  refine ⟨?_, ?_, ?_, ?_, rfl, rfl⟩
  · simp [addSentinelPermissions, addApiPermissions, hfind,
      mergedRequiredResourceAccess, hprior]
  · simp [getApplication_patchApplication, hfind]
  · exact List.take_left prior [managementPermissions]
  · exact List.drop_left prior [managementPermissions]

/-- Witness for C1 at a concrete directory whose application already has
one unrelated entry. -/
theorem C1_addSentinelPermissions_appends_witness :
    getApplication sampleDir "obj-1" = some sampleApp ∧
    sampleApp.requiredResourceAccess.getD [] = [graphUserReadEntry] ∧
    (addSentinelPermissions sampleDir "obj-1" =
      some (patchApplication sampleDir "obj-1"
        ([graphUserReadEntry] ++ [managementPermissions])) ∧
    getApplication (patchApplication sampleDir "obj-1"
        ([graphUserReadEntry] ++ [managementPermissions])) "obj-1" =
      some { sampleApp with
        requiredResourceAccess := some ([graphUserReadEntry] ++ [managementPermissions]) } ∧
    ([graphUserReadEntry] ++ [managementPermissions]).take
        [graphUserReadEntry].length = [graphUserReadEntry] ∧
    ([graphUserReadEntry] ++ [managementPermissions]).drop
        [graphUserReadEntry].length = [managementPermissions] ∧
    managementPermissions.resourceAppId = "797f4846-ba00-4fd7-ba43-dac1f8f63013" ∧
    managementPermissions.resourceAccess =
      [{ id := "41094075-9dad-400e-a0bd-54e686782033", type := "Scope" }]) :=
  ⟨rfl, rfl,
    C1_addSentinelPermissions_appends sampleDir "obj-1" sampleApp [graphUserReadEntry] rfl rfl⟩

/-- C9: when the application's `requiredResourceAccess` field is absent,
`addApiPermissions` treats it as the empty list: the merge succeeds and
the patched list equals exactly the supplied permissions. -/
theorem C9_addApiPermissions_absent_field (dir : Directory) (appObjectId : String)
    (app : RegisteredApp) (permissions : List RequiredResourceAccessEntry)
    (hfind : getApplication dir appObjectId = some app)
    (habsent : app.requiredResourceAccess = none) :
    mergedRequiredResourceAccess app permissions = permissions ∧
    addApiPermissions dir appObjectId permissions =
      some (patchApplication dir appObjectId permissions) ∧
    getApplication (patchApplication dir appObjectId permissions) appObjectId =
      some { app with requiredResourceAccess := some permissions } := by
  have hm : mergedRequiredResourceAccess app permissions = permissions := by
    simp [mergedRequiredResourceAccess, habsent]
  refine ⟨hm, ?_, ?_⟩
  · simp [addApiPermissions, hfind, hm]
  · simp [getApplication_patchApplication, hfind]

/-- Witness for C9 at a concrete application with no
`requiredResourceAccess` field. -/
theorem C9_addApiPermissions_absent_field_witness :
    getApplication sampleDir "obj-2" = some sampleBareApp ∧
    sampleBareApp.requiredResourceAccess = none ∧
    (mergedRequiredResourceAccess sampleBareApp [managementPermissions] =
      [managementPermissions] ∧
    addApiPermissions sampleDir "obj-2" [managementPermissions] =
      some (patchApplication sampleDir "obj-2" [managementPermissions]) ∧
    getApplication (patchApplication sampleDir "obj-2" [managementPermissions]) "obj-2" =
      some { sampleBareApp with
        requiredResourceAccess := some [managementPermissions] }) :=
  ⟨rfl, rfl,
    C9_addApiPermissions_absent_field sampleDir "obj-2" sampleBareApp
      [managementPermissions] rfl rfl⟩

/-- C7: for every `appName` and `redirectUris`, the posted registration
payload carries exactly one baseline `requiredResourceAccess` entry (the
Microsoft Graph `User.Read` delegated scope), the caller-supplied
redirect URIs, and both implicit-grant issuance flags enabled. -/
theorem C7_registerApplication_payload (appName : String) (redirectUris : List String) :
    (registerApplication appName redirectUris).requiredResourceAccess =
      [graphUserReadEntry] ∧
    graphUserReadEntry =
      { resourceAppId := "00000003-0000-0000-c000-000000000000"
        resourceAccess := [{ id := "e1fe6dd8-ba31-4d61-89e7-88639da4683d", type := "Scope" }] } ∧
    (registerApplication appName redirectUris).web.redirectUris = redirectUris ∧
    (registerApplication appName redirectUris).web.implicitGrantSettings.enableIdTokenIssuance
      = true ∧
    (registerApplication appName redirectUris).web.implicitGrantSettings.enableAccessTokenIssuance
      = true :=
  ⟨rfl, rfl, rfl, rfl, rfl⟩

/-- C2: for every `PurgeResult`, the DELETE /purge route responds 207
exactly when either cleanup aggregate carries an error and 200 exactly
when neither does, and in both cases the response body is the
`PurgeResult` itself. -/
theorem C2_purgeRoute_status_iff (result : PurgeResult) :
    (purgeRoute result).body = result ∧
    ((purgeRoute result).status = 207 ↔
      (cleanupCarriesError result.queryCleanup = true ∨
        cleanupCarriesError result.huntCleanup = true)) ∧
    ((purgeRoute result).status = 200 ↔
      (cleanupCarriesError result.queryCleanup ||
        cleanupCarriesError result.huntCleanup) = false) := by
  unfold purgeRoute
  by_cases h : (cleanupCarriesError result.queryCleanup ||
      cleanupCarriesError result.huntCleanup) = true
  · simp [h]
    exact (Bool.or_eq_true _ _).mp h
  · simp only [Bool.or_eq_true, not_or, Bool.not_eq_true] at h
    simp [h]

/-- C10: the multer file filter accepts a file exactly when the
lowercased extension of its original name is `.kql`; uppercase and
mixed-case variants of the extension are accepted, every other extension
is rejected with an error. -/
theorem C10_fileFilter_accepts_kql_only (originalname : String) :
    (fileFilter originalname = Except.ok () ↔
      toLowerCase (extname originalname) = KQL_EXTENSION) ∧
    (fileFilter originalname =
        Except.error ("Only " ++ KQL_EXTENSION ++ " files are allowed") ↔
      (toLowerCase (extname originalname) == KQL_EXTENSION) = false) ∧
    fileFilter "query.KQL" = Except.ok () ∧
    fileFilter "query.kql" = Except.ok () ∧
    fileFilter "query.txt" = Except.error "Only .kql files are allowed" := by
  refine ⟨?_, ?_, rfl, rfl, rfl⟩
  · unfold fileFilter
    by_cases h : toLowerCase (extname originalname) = KQL_EXTENSION
    · simp [h]
    · simp [h]
  · unfold fileFilter
    by_cases h : toLowerCase (extname originalname) = KQL_EXTENSION
    · simp [h]
    · simp [h]

/-- Deleting a file removes it: the unlinked path is no longer present. -/
theorem not_mem_unlinkFile (files : List String) (p : String) :
    p ∉ unlinkFile files p := by
  simp [unlinkFile]

/-- C6: whenever the upload route runs with a staged file, the staged
file no longer exists when the request completes — on the 201 success
path and on every 500 failure path of the query-creation call alike. -/
theorem C6_uploaded_file_never_persists (f : UploadedFile) (files : List String)
    (freshName : String) (env : SiemEnv) (ws : Workspace) :
    ((uploadRoute (some f) files freshName env ws).2.1.contains f.path) = false ∧
    ((uploadRoute (some f) files freshName env ws).1.status = 201 ∨
      (uploadRoute (some f) files freshName env ws).1.status = 500) := by
  rcases hc : createQueryFromFile f.content freshName env ws with ⟨res, ws1, calls⟩
  simp only [uploadRoute, hc]
  cases res with
  | ok r => simp [not_mem_unlinkFile]
  | error e =>
    by_cases hmem : f.path ∈ files
    · simp [hmem, not_mem_unlinkFile]
    · simp [hmem]

/-- C4: at the failing input — a request body missing both `name` and
`query` — `createQueryFromInput` fails with a ValidationError and issues
zero remote calls, and the POST /hunting-queries route responds with
status 500 and an `{error}` body (not 400, as the claim and the
repository's own OpenAPI document state for invalid input). -/
theorem C4_validation_error_responds_500 (freshName : String) (env : SiemEnv)
    (ws : Workspace) :
    createQueryFromInput emptyQueryInput freshName env ws =
      (Except.error (QError.validation "name and query are required"), ws, []) ∧
    huntingQueriesPostRoute emptyQueryInput freshName env ws =
      ({ status := 500,
         body := QueryRouteBody.failure { error := "name and query are required" } },
       ws, []) :=
  ⟨rfl, rfl⟩

/-- C3: in every run of `createHuntWithQuery` that passes validation,
whose SavedSearch creation succeeds and whose Hunt creation fails, the
remote calls issued are exactly the SavedSearch creation followed by the
Hunt creation — no Relation creation and no deletion — the error
propagates to the caller, no Relation is added, and the created
SavedSearch is still present in the final workspace. -/
theorem C3_bulk_hunt_failure_orphan (input : BulkInput)
    (qFresh hFresh rFresh workspaceId : String) (env : SiemEnv) (ws : Workspace)
    (qn qq hn m : String)
    (h1 : input.queryInput.name = some qn)
    (h2 : input.queryInput.query = some qq)
    (h3 : input.huntName = some hn)
    (h4 : env.savedSearchFails = none)
    (h5 : env.huntFails = some m) :
    ∀ res ws2 calls,
      createHuntWithQuery input qFresh hFresh rFresh workspaceId env ws =
        (res, ws2, calls) →
      res = Except.error (QError.remote m) ∧
      calls = [CallKind.createSavedSearch, CallKind.createHunt] ∧
      ws2.relations = ws.relations ∧
      ∃ ss, buildSavedSearch input.queryInput qFresh = Except.ok ss ∧
        ss ∈ ws2.savedSearches := by
  intro res ws2 calls heq
  simp only [createHuntWithQuery, createQueryFromInput, createSentinelHunt,
    buildSavedSearch, buildHunt, h1, h2, h3, h4, h5] at heq
  rcases heq with ⟨⟩
  refine ⟨rfl, rfl, rfl, ?_⟩
  have hb : buildSavedSearch input.queryInput qFresh =
      Except.ok
        { name := qFresh
          displayName := qn
          category := "Hunting Queries"
          query := qq
          description := input.queryInput.description.getD ""
          tags := scalarTags "tactics" input.queryInput.tactics ++
            scalarTags "techniques" input.queryInput.techniques ++ [attributionTag] } := by
    simp [buildSavedSearch, h1, h2]
  exact ⟨_, hb, by simp⟩

/-- Witness for C3 at a concrete bulk input with a failing hunt step. -/
theorem C3_bulk_hunt_failure_orphan_witness :
    sampleBulkInput.queryInput.name = some "q1" ∧
    sampleBulkInput.queryInput.query = some "Heartbeat | take 1" ∧
    sampleBulkInput.huntName = some "H1" ∧
    huntFailsEnv.savedSearchFails = none ∧
    huntFailsEnv.huntFails = some "hunt boom" ∧
    ((createHuntWithQuery sampleBulkInput "g1" "g2" "g3" "/ws" huntFailsEnv
        emptyWorkspace).1 = Except.error (QError.remote "hunt boom") ∧
      (createHuntWithQuery sampleBulkInput "g1" "g2" "g3" "/ws" huntFailsEnv
        emptyWorkspace).2.2 = [CallKind.createSavedSearch, CallKind.createHunt] ∧
      (createHuntWithQuery sampleBulkInput "g1" "g2" "g3" "/ws" huntFailsEnv
        emptyWorkspace).2.1.relations = emptyWorkspace.relations ∧
      ∃ ss, buildSavedSearch sampleBulkInput.queryInput "g1" = Except.ok ss ∧
        ss ∈ (createHuntWithQuery sampleBulkInput "g1" "g2" "g3" "/ws" huntFailsEnv
          emptyWorkspace).2.1.savedSearches) :=
  ⟨rfl, rfl, rfl, rfl, rfl,
    C3_bulk_hunt_failure_orphan sampleBulkInput "g1" "g2" "g3" "/ws" huntFailsEnv
      emptyWorkspace "q1" "Heartbeat | take 1" "H1" "hunt boom" rfl rfl rfl rfl rfl
      _ _ _ rfl⟩

/-- A SavedSearch payload built successfully always carries the
attribution tag. -/
theorem attributionTag_of_buildSavedSearch (input : QueryInput) (freshName : String)
    (ss : SavedSearch) (h : buildSavedSearch input freshName = Except.ok ss) :
    attributionTag ∈ ss.tags := by
  unfold buildSavedSearch at h
  cases hn : input.name <;> cases hq : input.query <;> simp [hn, hq] at h
  rw [← h]
  simp

/-- A Hunt payload built successfully always carries the attribution
label. -/
theorem attributionLabel_of_buildHunt (name description : Option String)
    (freshName : String) (h : Hunt)
    (hh : buildHunt name description freshName = Except.ok h) :
    attributionLabel ∈ h.labels := by
  unfold buildHunt at hh
  cases hn : name <;> simp [hn] at hh
  rw [← hh]
  simp

/-- A Relation payload built successfully always carries the attribution
label. -/
theorem attributionLabel_of_buildRelation (huntId queryResourceId : Option String)
    (freshName : String) (r : Relation)
    (hr : buildRelation huntId queryResourceId freshName = Except.ok r) :
    attributionLabel ∈ r.labels := by
  unfold buildRelation at hr
  split at hr
  · split at hr
    · injection hr with hr'
      rw [← hr']
      simp
    · exact Except.noConfusion hr
  · exact Except.noConfusion hr

/-- Every SavedSearch successfully created through the input path carries
the attribution tag. -/
theorem attributionTag_of_createQueryFromInput (input : QueryInput) (freshName : String)
    (env : SiemEnv) (ws : Workspace) (ss : SavedSearch)
    (h : (createQueryFromInput input freshName env ws).1 = Except.ok ss) :
    attributionTag ∈ ss.tags := by
  unfold createQueryFromInput at h
  rcases hb : buildSavedSearch input freshName with e | p
  · rw [hb] at h; simp at h
  · rw [hb] at h
    rcases hf : env.savedSearchFails with _ | msg
    · rw [hf] at h
      simp at h
      rw [← h]
      exact attributionTag_of_buildSavedSearch _ _ _ hb
    · rw [hf] at h; simp at h

/-- Every SavedSearch successfully created through the file path carries
the attribution tag. -/
theorem attributionTag_of_createQueryFromFile (content freshName : String)
    (env : SiemEnv) (ws : Workspace) (ss : SavedSearch)
    (h : (createQueryFromFile content freshName env ws).1 = Except.ok ss) :
    attributionTag ∈ ss.tags := by
  unfold createQueryFromFile at h
  rcases hp : parseKqlFile content with e | input
  · rw [hp] at h; simp at h
  · rw [hp] at h
    exact attributionTag_of_createQueryFromInput _ _ _ _ _ h

/-- Every Hunt successfully created carries the attribution label. -/
theorem attributionLabel_of_createSentinelHunt (name description : Option String)
    (freshName : String) (env : SiemEnv) (ws : Workspace) (h : Hunt)
    (hh : (createSentinelHunt name description freshName env ws).1 = Except.ok h) :
    attributionLabel ∈ h.labels := by
  unfold createSentinelHunt at hh
  rcases hb : buildHunt name description freshName with e | p
  · rw [hb] at hh; simp at hh
  · rw [hb] at hh
    rcases hf : env.huntFails with _ | msg
    · rw [hf] at hh
      simp at hh
      rw [← hh]
      exact attributionLabel_of_buildHunt _ _ _ _ hb
    · rw [hf] at hh; simp at hh

/-- Every Relation successfully created carries the attribution label. -/
theorem attributionLabel_of_linkQueryToHunt (huntId queryResourceId : Option String)
    (freshName : String) (env : SiemEnv) (ws : Workspace) (r : Relation)
    (hr : (linkQueryToHunt huntId queryResourceId freshName env ws).1 = Except.ok r) :
    attributionLabel ∈ r.labels := by
  unfold linkQueryToHunt at hr
  rcases hb : buildRelation huntId queryResourceId freshName with e | p
  · rw [hb] at hr; simp at hr
  · rw [hb] at hr
    rcases hf : env.relationFails with _ | msg
    · rw [hf] at hr
      simp at hr
      rw [← hr]
      exact attributionLabel_of_buildRelation _ _ _ _ hb
    · rw [hf] at hr; simp at hr

/-- A Relation returned by the bulk orchestration carries the attribution
label. -/
theorem attributionLabel_of_createHuntWithQuery (input : BulkInput)
    (qFresh hFresh rFresh workspaceId : String) (env : SiemEnv) (ws : Workspace)
    (r : Relation)
    (h : (createHuntWithQuery input qFresh hFresh rFresh workspaceId env ws).1 =
      Except.ok r) :
    attributionLabel ∈ r.labels := by
  unfold createHuntWithQuery at h
  rcases hn : input.queryInput.name with _ | qn <;>
    rcases hq : input.queryInput.query with _ | qq <;>
    rcases hh : input.huntName with _ | huntName <;>
    simp only [hn, hq, hh] at h <;>
    try simp at h
  rcases hcq : createQueryFromInput input.queryInput qFresh env ws with ⟨res1, ws1, c1⟩
  rw [hcq] at h
  cases res1 with
  | error e => simp at h
  | ok ss =>
    rcases hch : createSentinelHunt (some huntName) input.huntDescription hFresh env ws1
      with ⟨res2, ws2, c2⟩
    simp only [hch] at h
    cases res2 with
    | error e => simp at h
    | ok hunt =>
      rcases hlr : linkQueryToHunt (some hunt.name)
          (some (fullQueryResourceId workspaceId ss)) rFresh env ws2
        with ⟨res3, ws3, c3⟩
      simp only [hlr] at h
      exact attributionLabel_of_linkQueryToHunt _ _ _ _ _ _ (by rw [hlr]; exact h)

/-- C5: every creation path of the system — input-based SavedSearch
creation, file-based SavedSearch creation, Hunt creation, Relation
linking, and the bulk orchestration — stamps the fixed Attribution Label
into the created resource's tag/label set, so every resource this
integration creates carries the label at creation time. -/
theorem C5_attribution_label_every_path :
    (∀ (input : QueryInput) (freshName : String) (env : SiemEnv) (ws : Workspace)
        (ss : SavedSearch),
      (createQueryFromInput input freshName env ws).1 = Except.ok ss →
      attributionTag ∈ ss.tags) ∧
    (∀ (content freshName : String) (env : SiemEnv) (ws : Workspace) (ss : SavedSearch),
      (createQueryFromFile content freshName env ws).1 = Except.ok ss →
      attributionTag ∈ ss.tags) ∧
    (∀ (name description : Option String) (freshName : String) (env : SiemEnv)
        (ws : Workspace) (h : Hunt),
      (createSentinelHunt name description freshName env ws).1 = Except.ok h →
      attributionLabel ∈ h.labels) ∧
    (∀ (huntId queryResourceId : Option String) (freshName : String) (env : SiemEnv)
        (ws : Workspace) (r : Relation),
      (linkQueryToHunt huntId queryResourceId freshName env ws).1 = Except.ok r →
      attributionLabel ∈ r.labels) ∧
    (∀ (input : BulkInput) (qFresh hFresh rFresh workspaceId : String) (env : SiemEnv)
        (ws : Workspace) (r : Relation),
      (createHuntWithQuery input qFresh hFresh rFresh workspaceId env ws).1 =
        Except.ok r →
      attributionLabel ∈ r.labels) ∧
    attributionTag.value = attributionLabel :=
  ⟨attributionTag_of_createQueryFromInput, attributionTag_of_createQueryFromFile,
   attributionLabel_of_createSentinelHunt, attributionLabel_of_linkQueryToHunt,
   attributionLabel_of_createHuntWithQuery, rfl⟩

/-- Witness for C5: each creation path evaluated at a concrete input. -/
theorem C5_attribution_label_every_path_witness :
    ((createQueryFromInput sampleQueryInput "g1" okSiemEnv emptyWorkspace).1 =
        Except.ok sampleSavedSearch ∧ attributionTag ∈ sampleSavedSearch.tags) ∧
    ((createQueryFromFile sampleKqlContent "g1" okSiemEnv emptyWorkspace).1 =
        Except.ok sampleFileSavedSearch ∧ attributionTag ∈ sampleFileSavedSearch.tags) ∧
    ((createSentinelHunt (some "H1") none "g2" okSiemEnv emptyWorkspace).1 =
        Except.ok sampleHunt ∧ attributionLabel ∈ sampleHunt.labels) ∧
    ((linkQueryToHunt (some "g2") (some "/ws/savedSearches/g1") "g3" okSiemEnv
        emptyWorkspace).1 = Except.ok sampleRelation ∧
      attributionLabel ∈ sampleRelation.labels) ∧
    ((createHuntWithQuery sampleBulkInput "g1" "g2" "g3" "/ws" okSiemEnv
        emptyWorkspace).1 = Except.ok sampleRelation ∧
      attributionLabel ∈ sampleRelation.labels) :=
  ⟨⟨rfl, C5_attribution_label_every_path.1 sampleQueryInput "g1" okSiemEnv
      emptyWorkspace sampleSavedSearch rfl⟩,
   ⟨rfl, C5_attribution_label_every_path.2.1 sampleKqlContent "g1" okSiemEnv
      emptyWorkspace sampleFileSavedSearch rfl⟩,
   ⟨rfl, C5_attribution_label_every_path.2.2.1 (some "H1") none "g2" okSiemEnv
      emptyWorkspace sampleHunt rfl⟩,
   ⟨rfl, C5_attribution_label_every_path.2.2.2.1 (some "g2")
      (some "/ws/savedSearches/g1") "g3" okSiemEnv emptyWorkspace sampleRelation rfl⟩,
   ⟨rfl, C5_attribution_label_every_path.2.2.2.2.1 sampleBulkInput "g1" "g2" "g3"
      "/ws" okSiemEnv emptyWorkspace sampleRelation rfl⟩⟩

/-- C8: in every run of the register-app route in which registration
succeeds and the subsequent permission step fails (on its read or on its
patch), the route responds 500 with an `{error}` body, the created
application is still present in the directory afterwards, and no delete
call was issued. -/
theorem C8_register_failure_no_rollback (appName : Option String)
    (redirectUris : Option (List String)) (freshApp : RegisteredApp)
    (env : GraphEnv) (dir : Directory)
    (h1 : env.registerFails = none)
    (h2 : env.getFails.isSome = true ∨ env.patchFails.isSome = true) :
    ∀ resp dir2 calls,
      registerAppRoute appName redirectUris freshApp env dir = (resp, dir2, calls) →
      resp.status = 500 ∧
      (∃ msg, resp.body = RegisterRouteBody.failure ⟨msg⟩) ∧
      { freshApp with
          displayName := appName.getD DEFAULT_APP_NAME
          requiredResourceAccess := some [graphUserReadEntry] } ∈ dir2 ∧
      calls.contains GraphCall.deleteApplication = false := by
  intro resp dir2 calls heq
  simp only [registerAppRoute, h1] at heq
  rcases hg : env.getFails with _ | e
  · rcases hp : env.patchFails with _ | e2
    · rw [hg, hp] at h2
      simp at h2
    · simp only [hg, hp] at heq
      rcases heq with ⟨⟩
      refine ⟨rfl, ⟨e2, rfl⟩, ?_, rfl⟩
      simp [registerApplication]
  · simp only [hg] at heq
    rcases heq with ⟨⟩
    refine ⟨rfl, ⟨e, rfl⟩, ?_, rfl⟩
    simp [registerApplication]

/-- Witness for C8 at a concrete run whose permission patch fails. -/
theorem C8_register_failure_no_rollback_witness :
    patchFailsGraphEnv.registerFails = none ∧
    (patchFailsGraphEnv.getFails.isSome = true ∨
      patchFailsGraphEnv.patchFails.isSome = true) ∧
    ((registerAppRoute (some "My App") none sampleFreshApp patchFailsGraphEnv
        []).1.status = 500 ∧
      (∃ msg,
        (registerAppRoute (some "My App") none sampleFreshApp patchFailsGraphEnv
          []).1.body = RegisterRouteBody.failure ⟨msg⟩) ∧
      { sampleFreshApp with
          displayName := (some "My App").getD DEFAULT_APP_NAME
          requiredResourceAccess := some [graphUserReadEntry] } ∈
        (registerAppRoute (some "My App") none sampleFreshApp patchFailsGraphEnv
          []).2.1 ∧
      (registerAppRoute (some "My App") none sampleFreshApp patchFailsGraphEnv
          []).2.2.contains GraphCall.deleteApplication = false) :=
  ⟨rfl, Or.inr rfl,
    C8_register_failure_no_rollback (some "My App") none sampleFreshApp
      patchFailsGraphEnv [] rfl (Or.inr rfl) _ _ _ rfl⟩
